import Mathlib

/-!
Verification of the worker channel subsystem of the mediasoup host-side
control plane (Rust sources `worker/payload_channel.rs`, `worker/channels.rs`,
`data_structures.rs`) against its natural-language specification.

The Rust code is shallowly embedded:
* byte strings are `List Nat` (each element a byte value);
* `HashMap<u32, Sender>` is an association list with replace-on-insert
  semantics (`hmInsert`, `hmRemove`, `hmLookup`); one-shot senders are
  modelled by opaque `Nat` tokens;
* `f64` arithmetic in the timeout computation is modelled by exact rational
  arithmetic (for every in-flight depth `d < 2 ^ 32` the real value
  `1000 * (15 + 0.1 * d)` is within `10 ^ -3` of the `f64` computation, far
  below the rounding threshold of `1 / 2`, so `round` agrees);
* Rust panics (out-of-bounds slice, `unwrap` failure, explicit panics) are
  modelled by dedicated error constructors whose names start with `panic`;
* the async reader/writer tasks are modelled as sequential functions over the
  full byte stream / outbound queue; `serde_json` (an external crate) is
  abstracted by an arbitrary classification function passed as a parameter.
-/

/-- `NS_PAYLOAD_MAX_LEN` from `payload_channel.rs` / `channels.rs`. -/
def NS_PAYLOAD_MAX_LEN : Nat := 4194304

/-- `NS_MESSAGE_MAX_LEN` from `payload_channel.rs`: netstring length of a
4194304-byte payload (7 digits + colon + body + comma). -/
def NS_MESSAGE_MAX_LEN : Nat := 4194313

/-- Minimal JSON value model for `serde_json::Value`. -/
inductive JsonValue where
  | null : JsonValue
  | bool (b : Bool) : JsonValue
  | num (n : Int) : JsonValue
  | str (s : String) : JsonValue
  | arr (xs : List JsonValue) : JsonValue
  | obj (fields : List (String × JsonValue)) : JsonValue

/-- `Value::get(key)` for object values (`None` on non-objects). -/
def JsonValue.get (v : JsonValue) (key : String) : Option JsonValue :=
  match v with
  | .obj fields => fields.lookup key
  | _ => none

/-- `Value::as_str`. -/
def JsonValue.as_str (v : JsonValue) : Option String :=
  match v with
  | .str s => some s
  | _ => none

/-- `targetId` extraction in the notification branch of the payload-channel
reader: `notification.get("targetId").map(as_str).flatten().map(to_owned)`. -/
def targetIdOf (v : JsonValue) : Option String :=
  (v.get "targetId").bind JsonValue.as_str

/-- Model of `HashMap<u32, async_oneshot::Sender<_>>`: an association list
from ids to opaque sender tokens. -/
abbrev HMap := List (Nat × Nat)

/-- `HashMap::get`-style lookup. -/
def hmLookup : HMap → Nat → Option Nat
  | [], _ => none
  | (a, b) :: t, k => if k = a then some b else hmLookup t k

/-- `HashMap::remove` (the mutation part; the removed value is `hmLookup`). -/
def hmRemove : HMap → Nat → HMap
  | [], _ => []
  | (a, b) :: t, k => if a = k then hmRemove t k else (a, b) :: hmRemove t k

/-- `HashMap::insert`: the new binding replaces any existing one. -/
def hmInsert (m : HMap) (k v : Nat) : HMap :=
  (k, v) :: hmRemove m k

theorem hmLookup_remove_self (m : HMap) (k : Nat) :
    hmLookup (hmRemove m k) k = none := by
  induction m with
  | nil => rfl
  | cons p t ih =>
    obtain ⟨a, b⟩ := p
    by_cases hp : a = k
    · simpa [hmRemove, hp] using ih
    · have hk : k ≠ a := fun hh => hp hh.symm
      simpa [hmRemove, hp, hmLookup, hk] using ih

theorem hmLookup_remove_ne (m : HMap) (k j : Nat) (h : j ≠ k) :
    hmLookup (hmRemove m k) j = hmLookup m j := by
  induction m with
  | nil => rfl
  | cons p t ih =>
    obtain ⟨a, b⟩ := p
    by_cases hp : a = k
    · have hj : j ≠ a := fun hh => h (hh.trans hp)
      simpa [hmRemove, hp, hmLookup, hj, h] using ih
    · by_cases hja : j = a
      · simp [hmRemove, hp, hmLookup, hja]
      · simpa [hmRemove, hp, hmLookup, hja] using ih

theorem hmLookup_insert_self (m : HMap) (k v : Nat) :
    hmLookup (hmInsert m k v) k = some v := by
  simp [hmInsert, hmLookup]

theorem hmLookup_insert_ne (m : HMap) (k v j : Nat) (h : j ≠ k) :
    hmLookup (hmInsert m k v) j = hmLookup m j := by
  simp only [hmInsert, hmLookup, if_neg h]
  exact hmLookup_remove_ne m k j h

theorem hmRemove_eq_self_of_not_mem (m : HMap) (k : Nat)
    (h : hmLookup m k = none) : hmRemove m k = m := by
  induction m with
  | nil => rfl
  | cons p t ih =>
    obtain ⟨a, b⟩ := p
    by_cases hp : a = k
    · exfalso
      simp [hmLookup, hp.symm] at h
    · have hk : k ≠ a := fun hh => hp hh.symm
      simp only [hmLookup, if_neg hk] at h
      simp [hmRemove, hp, ih h]

/-- `RequestsContainer` from `payload_channel.rs`: wrapping `u32` id counter
plus the pending-request handler map. -/
structure RequestsContainer where
  next_id : Nat
  handlers : HMap
deriving DecidableEq

/-- `RequestsContainer::default()`. -/
def RequestsContainer.default : RequestsContainer := ⟨0, []⟩

/-- Auxiliary decimal printer (fuel-based so that it reduces in the kernel);
models `usize::to_string` producing ASCII bytes, most significant first. -/
def natDigitsAux : Nat → Nat → List Nat → List Nat
  | 0, _, acc => acc
  | fuel + 1, n, acc =>
    if n < 10 then (48 + n) :: acc
    else natDigitsAux fuel (n / 10) ((48 + n % 10) :: acc)

/-- ASCII decimal digits of `n`, as produced by `n.to_string().as_bytes()`. -/
def natDigits (n : Nat) : List Nat :=
  natDigitsAux (n + 1) n []

/-- Digit-accumulating core of `str::parse::<usize>`. -/
def parseDigits : List Nat → Nat → Option Nat
  | [], acc => some acc
  | b :: t, acc =>
    if 48 ≤ b ∧ b ≤ 57 then parseDigits t (acc * 10 + (b - 48)) else none

/-- Model of `String::from_utf8_lossy(bytes).parse::<usize>()`: an optional
leading `+`, then a nonempty run of ASCII digits, value below `2 ^ 64`
(64-bit `usize`); anything else is a parse error. Bytes outside the ASCII
digit range can never become digits under lossy UTF-8 decoding. -/
def parseDecimal (l : List Nat) : Option Nat :=
  let digits := if l.head? = some 43 then l.tail else l
  if digits = [] then none
  else match parseDigits digits 0 with
    | none => none
    | some v => if v < 2 ^ 64 then some v else none

/-- `reader.read_until(b':', &mut len_bytes)`: returns the bytes read (the
delimiter included when found) and the remaining stream. -/
def readUntilColon : List Nat → List Nat × List Nat
  | [] => ([], [])
  | b :: rest =>
    if b = 58 then ([58], rest)
    else
      let r := readUntilColon rest
      (b :: r.1, r.2)

/-- Failure modes of one frame read in the reader tasks. `panicParse` models
the `unwrap` panic of the length parse, `panicSliceOob` the out-of-bounds
slice `bytes[..(length + 1)]` of the `NS_PAYLOAD_MAX_LEN`-byte buffer (its
flag records whether the oversize warning was logged first), `eofInBody` the
`UnexpectedEof` I/O error of `read_exact`. -/
inductive ReadErr where
  | panicParse : ReadErr
  | panicSliceOob (warned : Bool) : ReadErr
  | eofInBody : ReadErr
deriving DecidableEq

/-- Result of one frame read. -/
inductive FrameResult where
  | eofAtStart : FrameResult
  | fail (e : ReadErr) : FrameResult
  | frame (body rest : List Nat) : FrameResult
deriving DecidableEq

/-- One iteration of the frame-reading prelude of the reader task in
`PayloadChannel::new` (`payload_channel.rs` lines 133-151 and 198-217):
read the length prefix up to `:`, parse it (panicking on bad digits), log a
warning when it exceeds `NS_PAYLOAD_MAX_LEN`, then read `length + 1` further
bytes into the `NS_PAYLOAD_MAX_LEN`-byte buffer (the trailing byte, the
netstring `,`, is consumed but never validated). -/
def readFrame (input : List Nat) : FrameResult :=
  let chunk := (readUntilColon input).1
  let rest := (readUntilColon input).2
  if chunk.length = 0 then .eofAtStart
  else
    match parseDecimal (chunk.take (chunk.length - 1)) with
    | none => .fail .panicParse
    | some length =>
      if length + 1 > NS_PAYLOAD_MAX_LEN then
        .fail (.panicSliceOob (decide (length > NS_PAYLOAD_MAX_LEN)))
      else if rest.length < length + 1 then .fail .eofInBody
      else .frame (rest.take length) (rest.drop (length + 1))

/-- One outbound frame as built by the writer tasks (length digits, colon,
body, comma). -/
def encodeFrame (body : List Nat) : List Nat :=
  natDigits body.length ++ [58] ++ body ++ [44]

theorem readUntilColon_length (input : List Nat) :
    (readUntilColon input).1.length + (readUntilColon input).2.length
      = input.length := by
  induction input with
  | nil => rfl
  | cons b rest ih =>
    by_cases hb : b = 58
    · simp [readUntilColon, hb]
      omega
    · simp only [readUntilColon, if_neg hb, List.length_cons]
      omega

theorem readUntilColon_nonempty (b : Nat) (rest : List Nat) :
    (readUntilColon (b :: rest)).1.length ≠ 0 := by
  by_cases hb : b = 58 <;> simp [readUntilColon, hb]

theorem readFrame_frame_rest_lt (input body rest : List Nat)
    (h : readFrame input = .frame body rest) : rest.length < input.length := by
  cases input with
  | nil => simp [readFrame, readUntilColon] at h
  | cons b t =>
    have hne := readUntilColon_nonempty b t
    have hlen := readUntilColon_length (b :: t)
    simp only [readFrame, if_neg hne] at h
    split at h
    · simp at h
    · rename_i length heq
      split at h
      · simp at h
      · rename_i h1
        split at h
        · simp at h
        · rename_i h2
          have hr : rest = (readUntilColon (b :: t)).2.drop (length + 1) := by
            cases h; rfl
          have hd : rest.length ≤ (readUntilColon (b :: t)).2.length := by
            rw [hr]
            simp only [List.length_drop]
            exact Nat.sub_le _ _
          have h3 : (readUntilColon (b :: t)).2.length < (b :: t).length := by
            omega
          exact Nat.lt_of_le_of_lt hd h3

theorem readUntilColon_split (p r : List Nat) (hp : 58 ∉ p) :
    readUntilColon (p ++ 58 :: r) = (p ++ [58], r) := by
  induction p with
  | nil => simp [readUntilColon]
  | cons b t ih =>
    have hb : b ≠ 58 := fun hh => hp (by simp [hh])
    have ht : 58 ∉ t := fun hh => hp (by simp [hh])
    simp [readUntilColon, hb, ih ht]

/-- Parsed shape of a frame body, the outcome of `deserialize_message`
(`serde_json` is external, so the classification of a body is an arbitrary
parameter in what follows; `unparsed` is the deserialization-failure case
that becomes `InternalMessage::UnexpectedData`). -/
inductive RecvShape where
  | responseSuccess (id : Nat) (data : Option JsonValue) : RecvShape
  | responseError (id : Nat) (reason : String) : RecvShape
  | notification (v : JsonValue) : RecvShape
  | unparsed : RecvShape

/-- `Response<Value> = Result<Option<Value>, ResponseError>`. -/
abbrev ResponseResult := Except String (Option JsonValue)

/-- Observable actions of the reader task: completing a pending one-shot,
warning about an unmatched response id, delivering a `(message, payload)`
pair to the subscriber for a target id, or surfacing unexpected data. -/
inductive Event where
  | completed (id : Nat) (tok : Nat) (res : ResponseResult) : Event
  | warnedUnmatched (id : Nat) : Event
  | delivered (target : String) (message : JsonValue) (payload : List Nat) : Event
  | unexpectedData (data : List Nat) : Event

/-- How the reader task ends: clean EOF, or a panic / I/O failure. -/
inductive ReaderExit where
  | cleanEof : ReaderExit
  | failed (e : ReadErr) : ReaderExit
deriving DecidableEq

/-- Response handling of the payload-channel reader (`payload_channel.rs`
lines 158-190, identical for the success and error arms):
`requests_container.lock().await.handlers.remove(&id)`, then either send the
result into the recovered one-shot or log a warning. -/
def dispatchResponse (rc : RequestsContainer) (id : Nat) (res : ResponseResult) :
    RequestsContainer × Event :=
  let sender := hmLookup rc.handlers id
  let rc' : RequestsContainer := ⟨rc.next_id, hmRemove rc.handlers id⟩
  match sender with
  | some tok => (rc', .completed id tok res)
  | none => (rc', .warnedUnmatched id)

/-- The payload-channel reader task of `PayloadChannel::new`
(`payload_channel.rs` lines 127-255), as a sequential function of the full
inbound byte stream: read a frame, classify it, and for a notification read
exactly one further frame (the payload) inside the same iteration before
continuing; sends on the internal channel are modelled as succeeding. -/
def readerLoop (classify : List Nat → RecvShape) (rc : RequestsContainer)
    (input : List Nat) : List Event × RequestsContainer × ReaderExit :=
  match hf : readFrame input with
  | .eofAtStart => ([], rc, .cleanEof)
  | .fail e => ([], rc, .failed e)
  | .frame body rest =>
    match classify body with
    | .responseSuccess id data =>
      let s := dispatchResponse rc id (.ok data)
      let r := readerLoop classify s.1 rest
      (s.2 :: r.1, r.2)
    | .responseError id reason =>
      let s := dispatchResponse rc id (.error reason)
      let r := readerLoop classify s.1 rest
      (s.2 :: r.1, r.2)
    | .unparsed =>
      let r := readerLoop classify rc rest
      (.unexpectedData body :: r.1, r.2)
    | .notification v =>
      match hg : readFrame rest with
      | .eofAtStart => ([], rc, .cleanEof)
      | .fail e => ([], rc, .failed e)
      | .frame payload rest2 =>
        let ev : Event := match targetIdOf v with
          | some t => .delivered t v payload
          | none => .unexpectedData payload
        let r := readerLoop classify rc rest2
        (ev :: r.1, r.2)
termination_by input.length
decreasing_by
  · exact readFrame_frame_rest_lt _ _ _ hf
  · exact readFrame_frame_rest_lt _ _ _ hf
  · exact readFrame_frame_rest_lt _ _ _ hf
  · exact Nat.lt_trans (readFrame_frame_rest_lt _ _ _ hg)
      (readFrame_frame_rest_lt _ _ _ hf)

/-- The frame stream of an inbound byte stream: repeated `readFrame`,
together with how reading ends. -/
def splitFrames (input : List Nat) : List (List Nat) × ReaderExit :=
  match hf : readFrame input with
  | .eofAtStart => ([], .cleanEof)
  | .fail e => ([], .failed e)
  | .frame body rest =>
    let r := splitFrames rest
    (body :: r.1, r.2)
termination_by input.length
decreasing_by
  exact readFrame_frame_rest_lt _ _ _ hf

/-- Specification-side dispatcher for the payload lane, following the spec's
words: walk the frame stream, and pair every notification frame with the
immediately following frame as its payload, dispatching no other record
between them. `readerLoop` is proved equal to it. -/
def pairedDispatch (classify : List Nat → RecvShape) :
    RequestsContainer → List (List Nat) → ReaderExit →
      List Event × RequestsContainer × ReaderExit
  | rc, [], e => ([], rc, e)
  | rc, f :: fs, e =>
    match classify f with
    | .responseSuccess id data =>
      let s := dispatchResponse rc id (.ok data)
      let r := pairedDispatch classify s.1 fs e
      (s.2 :: r.1, r.2)
    | .responseError id reason =>
      let s := dispatchResponse rc id (.error reason)
      let r := pairedDispatch classify s.1 fs e
      (s.2 :: r.1, r.2)
    | .unparsed =>
      let r := pairedDispatch classify rc fs e
      (.unexpectedData f :: r.1, r.2)
    | .notification v =>
      match fs with
      | [] => ([], rc, e)
      | payload :: fs2 =>
        let ev : Event := match targetIdOf v with
          | some t => .delivered t v payload
          | none => .unexpectedData payload
        let r := pairedDispatch classify rc fs2 e
        (ev :: r.1, r.2)

/-- One iteration of the payload-channel writer task (`payload_channel.rs`
lines 263-286): build and write the netstring of the JSON message, then
build and write the netstring of the payload, with no other write between
the two `write_all` calls. -/
def writerStep (message payload : List Nat) : List Nat :=
  (natDigits message.length ++ [58] ++ message ++ [44])
    ++ (natDigits payload.length ++ [58] ++ payload ++ [44])

/-- The payload-channel writer task over the whole outbound queue. -/
def writerRun : List (List Nat × List Nat) → List Nat
  | [] => []
  | mp :: queue => writerStep mp.1 mp.2 ++ writerRun queue

theorem readerLoop_eq_pairedDispatch_aux (classify : List Nat → RecvShape) :
    ∀ (n : Nat) (input : List Nat) (rc : RequestsContainer), input.length ≤ n →
      readerLoop classify rc input
        = pairedDispatch classify rc (splitFrames input).1 (splitFrames input).2 := by
  intro n
  induction n with
  | zero =>
    intro input rc h
    have hi : input = [] := List.length_eq_zero.mp (Nat.le_zero.mp h)
    subst hi
    rw [readerLoop.eq_def, splitFrames.eq_def]
    simp [readFrame, readUntilColon, pairedDispatch]
  | succ n ih =>
    intro input rc h
    rw [readerLoop.eq_def, splitFrames.eq_def]
    cases hf : readFrame input with
    | eofAtStart => simp [pairedDispatch]
    | fail e => simp [pairedDispatch]
    | frame body rest =>
      have hrest : rest.length ≤ n := by
        have := readFrame_frame_rest_lt input body rest hf
        omega
      simp only []
      cases hc : classify body with
      | responseSuccess id data =>
        simp only [pairedDispatch, hc]
        rw [ih rest _ hrest]
      | responseError id reason =>
        simp only [pairedDispatch, hc]
        rw [ih rest _ hrest]
      | unparsed =>
        simp only [pairedDispatch, hc]
        rw [ih rest _ hrest]
      | notification v =>
        simp only [pairedDispatch, hc]
        rw [splitFrames.eq_def]
        cases hg : readFrame rest with
        | eofAtStart => simp [pairedDispatch, hc]
        | fail e => simp [pairedDispatch, hc]
        | frame payload rest2 =>
          have hrest2 : rest2.length ≤ n := by
            have h1 := readFrame_frame_rest_lt input body rest hf
            have h2 := readFrame_frame_rest_lt rest payload rest2 hg
            omega
          simp only [pairedDispatch, hc]
          rw [ih rest2 _ hrest2]

/-- The reader refines frame-level paired dispatch. -/
theorem readerLoop_eq_pairedDispatch (classify : List Nat → RecvShape)
    (rc : RequestsContainer) (input : List Nat) :
    readerLoop classify rc input
      = pairedDispatch classify rc (splitFrames input).1 (splitFrames input).2 :=
  readerLoop_eq_pairedDispatch_aux classify input.length input rc le_rfl

theorem writerRun_flat (queue : List (List Nat × List Nat)) :
    writerRun queue
      = queue.flatMap (fun mp => encodeFrame mp.1 ++ encodeFrame mp.2) := by
  induction queue with
  | nil => rfl
  | cons mp t ih =>
    simp [writerRun, writerStep, encodeFrame, ih]

/-- `RequestError` variants used by the payload channel (`worker` module). -/
inductive RequestError where
  | channelClosed : RequestError
  | messageTooLong : RequestError
  | payloadTooLong : RequestError
  | timedOut : RequestError
  | response (reason : String) : RequestError
deriving DecidableEq

/-- `NotificationError` from `payload_channel.rs`. -/
inductive NotificationError where
  | channelClosed : NotificationError
  | messageTooLong : NotificationError
  | payloadTooLong : NotificationError
deriving DecidableEq

/-- Whether `sender.send(..)` on the bounded outbound queue succeeds. -/
inductive SendOutcome where
  | delivered : SendOutcome
  | closed : SendOutcome
deriving DecidableEq

/-- Which side of `future::or` in `request_internal` settles first: the
one-shot receiver (with the value the reader sent, or closed), or the timer. -/
inductive RaceWinner where
  | response (r : ResponseResult) : RaceWinner
  | receiverClosed : RaceWinner
  | timer : RaceWinner

/-- The id-allocation block of `request_internal` (`payload_channel.rs`
lines 374-382), executed under the registry mutex: read `id = next_id` and
the in-flight depth, bump `next_id` with `u32` wrap-around, and insert the
one-shot sender under `id` (a plain `HashMap::insert`, with no membership
check). Returns `(id, queue_len, updated container)`. -/
def allocateId (rc : RequestsContainer) (result_sender : Nat) :
    Nat × Nat × RequestsContainer :=
  (rc.next_id, rc.handlers.length,
    ⟨(rc.next_id + 1) % 2 ^ 32, hmInsert rc.handlers rc.next_id result_sender⟩)

/-- The raced timer duration of `request_internal`:
`(1000.0 * (15.0 + (0.1 * queue_len as f64))).round() as u64`, modelled over
exact rationals (for every `queue_len < 2 ^ 32` the `f64` computation is
within `10 ^ -3` of the exact value, so rounding agrees). -/
def timeoutMs (queue_len : Nat) : Int :=
  round ((1000 : ℚ) * (15 + (1 / 10) * (queue_len : ℚ)))

/-- Everything observable about one `request_internal` call: the final
registry (its own mutations only; a concurrent removal by the reader is
`dispatchResponse`), the returned value, the messages handed to the writer
queue, and the duration of the raced timer when one was started. -/
structure ReqOutcome where
  rc : RequestsContainer
  result : Except RequestError (Option JsonValue)
  enqueued : List (List Nat × List Nat)
  timerMs : Option Int

/-- `PayloadChannel::request_internal` (`payload_channel.rs` lines 355-442):
allocate an id and insert the one-shot; serialized message too long → remove
the id and fail; payload too long → remove the id and fail; enqueue to the
writer, failing with `ChannelClosed` (without touching the registry) when
the queue is closed; then race the one-shot against the scaled timer — on
timeout remove the id and fail with `TimedOut`. -/
def request_internal (rc : RequestsContainer) (result_sender : Nat)
    (serialized_message payload : List Nat)
    (send : SendOutcome) (race : RaceWinner) : ReqOutcome :=
  let a := allocateId rc result_sender
  let id := a.1
  let queue_len := a.2.1
  let rc1 := a.2.2
  if serialized_message.length > NS_PAYLOAD_MAX_LEN then
    ⟨⟨rc1.next_id, hmRemove rc1.handlers id⟩, .error .messageTooLong, [], none⟩
  else if payload.length > NS_PAYLOAD_MAX_LEN then
    ⟨⟨rc1.next_id, hmRemove rc1.handlers id⟩, .error .payloadTooLong, [], none⟩
  else
    match send with
    | .closed => ⟨rc1, .error .channelClosed, [], none⟩
    | .delivered =>
      match race with
      | .response (.ok data) =>
        ⟨rc1, .ok data, [(serialized_message, payload)], some (timeoutMs queue_len)⟩
      | .response (.error reason) =>
        ⟨rc1, .error (.response reason), [(serialized_message, payload)],
          some (timeoutMs queue_len)⟩
      | .receiverClosed =>
        ⟨rc1, .error .channelClosed, [(serialized_message, payload)],
          some (timeoutMs queue_len)⟩
      | .timer =>
        ⟨⟨rc1.next_id, hmRemove rc1.handlers id⟩, .error .timedOut,
          [(serialized_message, payload)], some (timeoutMs queue_len)⟩

/-- `PayloadChannel::notify_internal` (`payload_channel.rs` lines 445-482). -/
def notify_internal (serialized_notification payload : List Nat)
    (send : SendOutcome) :
    Except NotificationError Unit × List (List Nat × List Nat) :=
  if serialized_notification.length > NS_PAYLOAD_MAX_LEN then
    (.error .messageTooLong, [])
  else if payload.length > NS_PAYLOAD_MAX_LEN then
    (.error .payloadTooLong, [])
  else
    match send with
    | .closed => (.error .channelClosed, [])
    | .delivered => (.ok (), [(serialized_notification, payload)])

/-- One allocate-then-complete cycle: a request is issued (token 0) and its
response arrives at once, so the reader removes the fresh id again. -/
def spin (rc : RequestsContainer) : RequestsContainer :=
  (dispatchResponse (allocateId rc 0).2.2 rc.next_id (.ok none)).1

/-- UTF-8 continuation byte (`0x80..=0xBF`). -/
def utf8Cont (b : Nat) : Bool :=
  decide (128 ≤ b) && decide (b ≤ 191)

/-- Standard UTF-8 validity (what `String::from_utf8` checks): well-formed
1- to 4-byte sequences, no overlongs, no surrogates, max `U+10FFFF`. -/
def isValidUtf8 : List Nat → Bool
  | [] => true
  | b :: rest =>
    if b ≤ 127 then isValidUtf8 rest
    else if 194 ≤ b ∧ b ≤ 223 then
      match rest with
      | c1 :: r => utf8Cont c1 && isValidUtf8 r
      | [] => false
    else if b = 224 then
      match rest with
      | c1 :: c2 :: r =>
        (decide (160 ≤ c1) && decide (c1 ≤ 191)) && utf8Cont c2 && isValidUtf8 r
      | _ => false
    else if (225 ≤ b ∧ b ≤ 236) ∨ b = 238 ∨ b = 239 then
      match rest with
      | c1 :: c2 :: r => utf8Cont c1 && utf8Cont c2 && isValidUtf8 r
      | _ => false
    else if b = 237 then
      match rest with
      | c1 :: c2 :: r =>
        (decide (128 ≤ c1) && decide (c1 ≤ 159)) && utf8Cont c2 && isValidUtf8 r
      | _ => false
    else if b = 240 then
      match rest with
      | c1 :: c2 :: c3 :: r =>
        (decide (144 ≤ c1) && decide (c1 ≤ 191)) && utf8Cont c2 && utf8Cont c3
          && isValidUtf8 r
      | _ => false
    else if 241 ≤ b ∧ b ≤ 243 then
      match rest with
      | c1 :: c2 :: c3 :: r =>
        utf8Cont c1 && utf8Cont c2 && utf8Cont c3 && isValidUtf8 r
      | _ => false
    else if b = 244 then
      match rest with
      | c1 :: c2 :: c3 :: r =>
        (decide (128 ≤ c1) && decide (c1 ≤ 143)) && utf8Cont c2 && utf8Cont c3
          && isValidUtf8 r
      | _ => false
    else false

/-- `WebRtcMessage` from `data_structures.rs`; the `str` variant carries the
UTF-8 bytes of the Rust `String`. -/
inductive WebRtcMessage where
  | str (s : List Nat) : WebRtcMessage
  | binary (b : List Nat) : WebRtcMessage
  | emptyString : WebRtcMessage
  | emptyBinary : WebRtcMessage
deriving DecidableEq

/-- The Rust `String` invariant of the `str` variant: its bytes are valid
UTF-8 (guaranteed by the `String` type on the Rust side). -/
def WebRtcMessage.wf : WebRtcMessage → Prop
  | .str s => isValidUtf8 s = true
  | _ => True

/-- The panics of `WebRtcMessage::new`: the explicit bad-PPID panic, and the
`unwrap` of `String::from_utf8`. -/
inductive PpidPanic where
  | panicBadPpid (ppid : Nat) : PpidPanic
  | panicInvalidUtf8 : PpidPanic
deriving DecidableEq

/-- `WebRtcMessage::new` (`data_structures.rs` lines 714-725). PPID 51 is a
UTF-8 string, 53 binary, 56 empty string, 57 empty binary (the sentinel
payload bytes of the empty variants are discarded); every other PPID hits
the `Bad ppid` panic. -/
def WebRtcMessage.new (ppid : Nat) (payload : List Nat) :
    Except PpidPanic WebRtcMessage :=
  match ppid with
  | 51 => if isValidUtf8 payload then .ok (.str payload) else .error .panicInvalidUtf8
  | 53 => .ok (.binary payload)
  | 56 => .ok .emptyString
  | 57 => .ok .emptyBinary
  | _ => .error (.panicBadPpid ppid)

/-- `WebRtcMessage::into_ppid_and_payload` (`data_structures.rs` lines
727-734): the empty variants are sent as one sentinel byte (space for the
empty string, NUL for the empty binary). -/
def WebRtcMessage.into_ppid_and_payload : WebRtcMessage → Nat × List Nat
  | .str s => (51, s)
  | .binary b => (53, b)
  | .emptyString => (56, [32])
  | .emptyBinary => (57, [0])

/-- All elements are ASCII decimal digit bytes. -/
def allDigits (l : List Nat) : Prop := ∀ x ∈ l, 48 ≤ x ∧ x ≤ 57

theorem natDigitsAux_allDigits :
    ∀ (fuel n : Nat) (acc : List Nat), allDigits acc →
      allDigits (natDigitsAux fuel n acc) := by
  intro fuel
  induction fuel with
  | zero => intro n acc h; exact h
  | succ fuel ih =>
    intro n acc h
    by_cases hn : n < 10
    · simp only [natDigitsAux, if_pos hn]
      intro x hx
      rcases List.mem_cons.mp hx with hx | hx
      · subst hx; omega
      · exact h x hx
    · simp only [natDigitsAux, if_neg hn]
      apply ih
      intro x hx
      rcases List.mem_cons.mp hx with hx | hx
      · subst hx
        have := Nat.mod_lt n (show (0 : Nat) < 10 by norm_num)
        omega
      · exact h x hx

theorem natDigitsAux_ne_nil :
    ∀ (fuel n : Nat) (acc : List Nat), n < fuel →
      natDigitsAux fuel n acc ≠ [] := by
  intro fuel
  induction fuel with
  | zero => intro n acc h; exact absurd h (Nat.not_lt_zero n)
  | succ fuel ih =>
    intro n acc h
    by_cases hn : n < 10
    · simp [natDigitsAux, hn]
    · simp only [natDigitsAux, if_neg hn]
      apply ih
      have hd : n / 10 < n := Nat.div_lt_self (by omega) (by norm_num)
      omega

theorem parseDigits_natDigitsAux :
    ∀ (fuel n : Nat) (acc : List Nat), n < fuel →
      parseDigits (natDigitsAux fuel n acc) 0 = parseDigits acc n := by
  intro fuel
  induction fuel with
  | zero => intro n acc h; exact absurd h (Nat.not_lt_zero n)
  | succ fuel ih =>
    intro n acc h
    by_cases hn : n < 10
    · simp only [natDigitsAux, if_pos hn, parseDigits]
      rw [if_pos (by omega : 48 ≤ 48 + n ∧ 48 + n ≤ 57)]
      congr 1
      omega
    · simp only [natDigitsAux, if_neg hn]
      have hd : n / 10 < n := Nat.div_lt_self (by omega) (by norm_num)
      rw [ih (n / 10) _ (by omega)]
      simp only [parseDigits]
      rw [if_pos (by
        have := Nat.mod_lt n (show (0 : Nat) < 10 by norm_num)
        omega : 48 ≤ 48 + n % 10 ∧ 48 + n % 10 ≤ 57)]
      congr 1
      have := Nat.div_add_mod n 10
      omega

theorem natDigits_allDigits (n : Nat) : allDigits (natDigits n) :=
  natDigitsAux_allDigits _ n [] (by intro x hx; exact absurd hx (List.not_mem_nil x))

theorem natDigits_ne_nil (n : Nat) : natDigits n ≠ [] :=
  natDigitsAux_ne_nil _ n [] (Nat.lt_succ_self n)

theorem natDigits_no_colon (n : Nat) : 58 ∉ natDigits n := by
  intro hmem
  have := natDigits_allDigits n 58 hmem
  omega

theorem parseDigits_natDigits (n : Nat) : parseDigits (natDigits n) 0 = some n :=
  parseDigits_natDigitsAux _ n [] (Nat.lt_succ_self n)

theorem parseDecimal_natDigits (n : Nat) (h : n < 2 ^ 64) :
    parseDecimal (natDigits n) = some n := by
  obtain ⟨d, t, hdt⟩ : ∃ d t, natDigits n = d :: t := by
    cases hh : natDigits n with
    | nil => exact absurd hh (natDigits_ne_nil n)
    | cons d t => exact ⟨d, t, rfl⟩
  have hd48 : 48 ≤ d ∧ d ≤ 57 :=
    natDigits_allDigits n d (by rw [hdt]; exact List.mem_cons_self _ _)
  have hsign : ¬ ((natDigits n).head? = some 43) := by
    rw [hdt]
    simp only [List.head?_cons, Option.some.injEq]
    omega
  simp only [parseDecimal]
  rw [if_neg hsign, if_neg (natDigits_ne_nil n), parseDigits_natDigits n]
  have h64 : n < 18446744073709551616 := by
    have hp : (2 : Nat) ^ 64 = 18446744073709551616 := by norm_num
    omega
  simp [h64]

/-- What the reader makes of a frame the writer built: for bodies strictly
below the cap the frame round-trips; at or strictly above the cap the slice
of the `NS_PAYLOAD_MAX_LEN`-byte buffer panics (an off-by-one: the buffer
holds `NS_PAYLOAD_MAX_LEN` bytes but a maximal body needs
`NS_PAYLOAD_MAX_LEN + 1` of it). -/
theorem readFrame_encodeFrame (b rest : List Nat) (h : b.length < 2 ^ 64) :
    readFrame (encodeFrame b ++ rest)
      = if b.length + 1 > NS_PAYLOAD_MAX_LEN then
          .fail (.panicSliceOob (decide (b.length > NS_PAYLOAD_MAX_LEN)))
        else .frame b rest := by
  have hsplit : readUntilColon (encodeFrame b ++ rest)
      = (natDigits b.length ++ [58], b ++ 44 :: rest) := by
    have := readUntilColon_split (natDigits b.length) (b ++ 44 :: rest)
      (natDigits_no_colon b.length)
    simpa [encodeFrame, List.append_assoc] using this
  have htake : (natDigits b.length ++ [58]).take
      ((natDigits b.length ++ [58]).length - 1) = natDigits b.length := by
    have h1 : (natDigits b.length ++ [58]).length - 1 = (natDigits b.length).length := by
      simp
    rw [h1]
    exact List.take_left _ _
  simp only [readFrame, hsplit]
  rw [if_neg (by simp), htake, parseDecimal_natDigits b.length h]
  have hred : ∀ z : FrameResult,
      (match (some b.length : Option Nat) with
        | none => FrameResult.fail .panicParse
        | some length =>
          if length + 1 > NS_PAYLOAD_MAX_LEN then
            FrameResult.fail (.panicSliceOob (decide (length > NS_PAYLOAD_MAX_LEN)))
          else if (b ++ 44 :: rest).length < length + 1 then FrameResult.fail .eofInBody
          else FrameResult.frame ((b ++ 44 :: rest).take b.length)
            ((b ++ 44 :: rest).drop (b.length + 1))) = z ↔
      (if b.length + 1 > NS_PAYLOAD_MAX_LEN then
          FrameResult.fail (.panicSliceOob (decide (b.length > NS_PAYLOAD_MAX_LEN)))
        else if (b ++ 44 :: rest).length < b.length + 1 then FrameResult.fail .eofInBody
        else FrameResult.frame ((b ++ 44 :: rest).take b.length)
          ((b ++ 44 :: rest).drop (b.length + 1))) = z := by
    intro z
    exact Iff.rfl
  by_cases hb : b.length + 1 > NS_PAYLOAD_MAX_LEN
  · rw [hred, if_pos hb, if_pos hb]
  · rw [hred, if_neg hb, if_neg hb]
    rw [if_neg (by simp)]
    have ht : (b ++ 44 :: rest).take b.length = b := List.take_left _ _
    have hd : (b ++ 44 :: rest).drop (b.length + 1) = rest := by
      rw [List.drop_append]
      simp
    rw [ht, hd]

theorem timeoutMs_eq (d : Nat) : timeoutMs d = 15000 + 100 * (d : Int) := by
  unfold timeoutMs
  have h1 : (1000 : ℚ) * (15 + (1 / 10) * (d : ℚ))
      = ((15000 + 100 * (d : Int) : Int) : ℚ) := by
    push_cast
    ring
  rw [h1, round_intCast]

/-- C1: with `d = |pending|` requests already in flight when the id is
allocated, the raced timer of `request_internal` is exactly
`round(1000 * (15 + 0.1 * d))` = `15000 + 100 * d` milliseconds, and when
the timer wins the race the request's id is removed from the pending map and
the caller gets `TimedOut`. -/
theorem C1_timeout_scaling (rc : RequestsContainer) (result_sender : Nat)
    (serialized_message payload : List Nat)
    (hm : serialized_message.length ≤ NS_PAYLOAD_MAX_LEN)
    (hp : payload.length ≤ NS_PAYLOAD_MAX_LEN) :
    (request_internal rc result_sender serialized_message payload
        .delivered .timer).timerMs = some (timeoutMs rc.handlers.length) ∧
    timeoutMs rc.handlers.length = 15000 + 100 * (rc.handlers.length : Int) ∧
    (request_internal rc result_sender serialized_message payload
        .delivered .timer).result = .error .timedOut ∧
    hmLookup (request_internal rc result_sender serialized_message payload
        .delivered .timer).rc.handlers rc.next_id = none := by
  have hm' : ¬ (serialized_message.length > NS_PAYLOAD_MAX_LEN) := by omega
  have hp' : ¬ (payload.length > NS_PAYLOAD_MAX_LEN) := by omega
  refine ⟨?_, timeoutMs_eq _, ?_, ?_⟩ <;>
    simp [request_internal, allocateId, hm', hp', hmInsert, hmLookup_remove_self]

theorem C1_timeout_scaling_witness :
    (request_internal ⟨0, []⟩ 7 [123, 125] [] .delivered .timer).result
      = .error .timedOut ∧
    (request_internal ⟨0, []⟩ 7 [123, 125] [] .delivered .timer).timerMs
      = some 15000 ∧
    hmLookup (request_internal ⟨0, []⟩ 7 [123, 125] []
        .delivered .timer).rc.handlers 0 = none := by
  have h := C1_timeout_scaling ⟨0, []⟩ 7 [123, 125] [] (by decide) (by decide)
  refine ⟨h.2.2.1, ?_, h.2.2.2⟩
  rw [h.1, h.2.1]
  norm_num

/-- C3: for an inbound response with id `k`: when `k` is pending the reader
removes exactly that entry (every other id keeps its handler, `next_id` is
untouched) and completes the recovered one-shot with `Ok(data)` or
`Err(reason)`; when `k` is absent the registry is unchanged and the response
is only logged at warn level. -/
theorem C3_response_matching (rc : RequestsContainer) (id : Nat)
    (res : ResponseResult) :
    (∀ tok, hmLookup rc.handlers id = some tok →
      (dispatchResponse rc id res).2 = .completed id tok res ∧
      hmLookup (dispatchResponse rc id res).1.handlers id = none ∧
      (∀ k, k ≠ id →
        hmLookup (dispatchResponse rc id res).1.handlers k
          = hmLookup rc.handlers k) ∧
      (dispatchResponse rc id res).1.next_id = rc.next_id) ∧
    (hmLookup rc.handlers id = none →
      (dispatchResponse rc id res).1 = rc ∧
      (dispatchResponse rc id res).2 = .warnedUnmatched id) := by
  constructor
  · intro tok htok
    refine ⟨?_, ?_, ?_, ?_⟩
    · simp [dispatchResponse, htok]
    · simp [dispatchResponse, htok, hmLookup_remove_self]
    · intro k hk
      simp [dispatchResponse, htok, hmLookup_remove_ne _ _ _ hk]
    · simp [dispatchResponse, htok]
  · intro hnone
    have hrm := hmRemove_eq_self_of_not_mem rc.handlers id hnone
    constructor
    · simp [dispatchResponse, hnone, hrm]
    · simp [dispatchResponse, hnone]

theorem C3_response_matching_witness :
    (dispatchResponse ⟨1, [(2, 5)]⟩ 2 (.ok none)).2
      = .completed 2 5 (.ok none) ∧
    hmLookup (dispatchResponse ⟨1, [(2, 5)]⟩ 2 (.ok none)).1.handlers 2 = none ∧
    (dispatchResponse ⟨1, [(2, 5)]⟩ 7 (.error "x")).1 = ⟨1, [(2, 5)]⟩ ∧
    (dispatchResponse ⟨1, [(2, 5)]⟩ 7 (.error "x")).2 = .warnedUnmatched 7 :=
  ⟨((C3_response_matching ⟨1, [(2, 5)]⟩ 2 (.ok none)).1 5 (by decide)).1,
   ((C3_response_matching ⟨1, [(2, 5)]⟩ 2 (.ok none)).1 5 (by decide)).2.1,
   ((C3_response_matching ⟨1, [(2, 5)]⟩ 7 (.error "x")).2 (by decide)).1,
   ((C3_response_matching ⟨1, [(2, 5)]⟩ 7 (.error "x")).2 (by decide)).2⟩

/-- C4 counterexample: a well-sized request whose enqueue to the writer
fails returns `ChannelClosed`, but the id inserted for it is NOT removed
from the pending map — `request_internal` maps the send error straight to
the return value with no registry cleanup. -/
theorem C4_counterexample :
    (request_internal ⟨0, []⟩ 7 [123, 125] [] .closed .timer).result
      = .error .channelClosed ∧
    (request_internal ⟨0, []⟩ 7 [123, 125] [] .closed .timer).enqueued = [] ∧
    hmLookup (request_internal ⟨0, []⟩ 7 [123, 125] []
        .closed .timer).rc.handlers 0 = some 7 ∧
    hmLookup (request_internal ⟨0, []⟩ 7 [123, 125] []
        .closed .timer).rc.handlers 0 ≠ none := by
  refine ⟨rfl, rfl, rfl, ?_⟩
  intro h
  simp [request_internal, allocateId, hmInsert, hmRemove, hmLookup] at h

/-- C4 amended: the two size-violation exits are atomic — `MessageTooLong` /
`PayloadTooLong` with nothing enqueued and the freshly inserted id removed;
a failed enqueue returns `ChannelClosed` with nothing enqueued but leaves
the inserted id in the pending map; `notify_internal` under the same size
violations returns `MessageTooLong` / `PayloadTooLong` and enqueues
nothing. -/
theorem C4_early_exit (rc : RequestsContainer) (result_sender : Nat)
    (serialized_message payload : List Nat) (send : SendOutcome)
    (race : RaceWinner) :
    (serialized_message.length > NS_PAYLOAD_MAX_LEN →
      (request_internal rc result_sender serialized_message payload send
          race).result = .error .messageTooLong ∧
      (request_internal rc result_sender serialized_message payload send
          race).enqueued = [] ∧
      hmLookup (request_internal rc result_sender serialized_message payload
          send race).rc.handlers rc.next_id = none) ∧
    (serialized_message.length ≤ NS_PAYLOAD_MAX_LEN →
      payload.length > NS_PAYLOAD_MAX_LEN →
      (request_internal rc result_sender serialized_message payload send
          race).result = .error .payloadTooLong ∧
      (request_internal rc result_sender serialized_message payload send
          race).enqueued = [] ∧
      hmLookup (request_internal rc result_sender serialized_message payload
          send race).rc.handlers rc.next_id = none) ∧
    (serialized_message.length ≤ NS_PAYLOAD_MAX_LEN →
      payload.length ≤ NS_PAYLOAD_MAX_LEN →
      (request_internal rc result_sender serialized_message payload .closed
          race).result = .error .channelClosed ∧
      (request_internal rc result_sender serialized_message payload .closed
          race).enqueued = [] ∧
      hmLookup (request_internal rc result_sender serialized_message payload
          .closed race).rc.handlers rc.next_id = some result_sender) ∧
    (serialized_message.length > NS_PAYLOAD_MAX_LEN →
      notify_internal serialized_message payload send
        = (.error .messageTooLong, [])) ∧
    (serialized_message.length ≤ NS_PAYLOAD_MAX_LEN →
      payload.length > NS_PAYLOAD_MAX_LEN →
      notify_internal serialized_message payload send
        = (.error .payloadTooLong, [])) := by
  refine ⟨?_, ?_, ?_, ?_, ?_⟩
  · intro hm
    refine ⟨?_, ?_, ?_⟩ <;>
      simp [request_internal, allocateId, hm, hmLookup_remove_self]
  · intro hm hp
    have hm' : ¬ (serialized_message.length > NS_PAYLOAD_MAX_LEN) := by omega
    refine ⟨?_, ?_, ?_⟩ <;>
      simp [request_internal, allocateId, hm', hp, hmLookup_remove_self]
  · intro hm hp
    have hm' : ¬ (serialized_message.length > NS_PAYLOAD_MAX_LEN) := by omega
    have hp' : ¬ (payload.length > NS_PAYLOAD_MAX_LEN) := by omega
    refine ⟨?_, ?_, ?_⟩ <;>
      simp [request_internal, allocateId, hm', hp', hmInsert, hmLookup]
  · intro hm
    simp [notify_internal, hm]
  · intro hm hp
    have hm' : ¬ (serialized_message.length > NS_PAYLOAD_MAX_LEN) := by omega
    simp [notify_internal, hm', hp]

theorem C4_early_exit_witness :
    (request_internal ⟨0, []⟩ 7 (List.replicate 4194305 0) [] .delivered
        .timer).result = .error .messageTooLong ∧
    hmLookup (request_internal ⟨0, []⟩ 7 (List.replicate 4194305 0) []
        .delivered .timer).rc.handlers 0 = none ∧
    (request_internal ⟨0, []⟩ 7 [123] [] .closed .timer).result
      = .error .channelClosed ∧
    hmLookup (request_internal ⟨0, []⟩ 7 [123] []
        .closed .timer).rc.handlers 0 = some 7 ∧
    notify_internal [123] (List.replicate 4194305 0) .delivered
      = (.error .payloadTooLong, []) := by
  have h1 := (C4_early_exit ⟨0, []⟩ 7 (List.replicate 4194305 0) [] .delivered
    .timer).1 (by rw [List.length_replicate]; decide)
  have h3 := (C4_early_exit ⟨0, []⟩ 7 [123] [] .closed .timer).2.2.1
    (by decide) (by decide)
  have h5 := (C4_early_exit ⟨0, []⟩ 7 [123] (List.replicate 4194305 0)
    .delivered .timer).2.2.2.2 (by decide)
    (by rw [List.length_replicate]; decide)
  exact ⟨h1.1, h1.2.2, h3.1, h3.2.2, h5⟩

theorem spin_step (n t : Nat) (h0 : 0 < n) :
    spin ⟨n, [(0, t)]⟩ = ⟨(n + 1) % 2 ^ 32, [(0, t)]⟩ := by
  have hn : ¬ (0 = n) := fun hh => Nat.lt_irrefl 0 (hh ▸ h0)
  have hn' : ¬ (n = 0) := fun hh => hn hh.symm
  simp [spin, dispatchResponse, allocateId, hmInsert, hmRemove, hmLookup,
    hn, hn']

theorem spin_iter (t : Nat) :
    ∀ m, m ≤ 2 ^ 32 - 1 →
      spin^[m] ⟨1, [(0, t)]⟩ = ⟨(1 + m) % 2 ^ 32, [(0, t)]⟩ := by
  intro m
  induction m with
  | zero =>
    intro _
    simp [Function.iterate_zero]
  | succ m ih =>
    intro h
    have hm : m ≤ 2 ^ 32 - 1 := by omega
    have hlt : 1 + m < 2 ^ 32 := by omega
    rw [Function.iterate_succ_apply', ih hm, Nat.mod_eq_of_lt hlt,
      spin_step (1 + m) t (by omega)]
    have harith : 1 + m + 1 = 1 + (m + 1) := by omega
    rw [harith]

/-- C5 counterexample: starting from the default registry, issue a request
(one-shot token 7, id 0) that never completes, then let `2 ^ 32 - 1`
allocate-and-complete cycles pass. The counter has wrapped: `next_id` is 0
again while id 0 is still pending with handler 7. Allocating the next
request (token 9) silently replaces handler 7 — no membership check guards
the insert. -/
theorem C5_counterexample :
    (spin^[2 ^ 32 - 1] ((allocateId ⟨0, []⟩ 7).2.2)).next_id = 0 ∧
    hmLookup (spin^[2 ^ 32 - 1] ((allocateId ⟨0, []⟩ 7).2.2)).handlers 0
      = some 7 ∧
    hmLookup (allocateId (spin^[2 ^ 32 - 1]
        ((allocateId ⟨0, []⟩ 7).2.2)) 9).2.2.handlers 0 = some 9 ∧
    hmLookup (allocateId (spin^[2 ^ 32 - 1]
        ((allocateId ⟨0, []⟩ 7).2.2)) 9).2.2.handlers 0 ≠ some 7 := by
  have h0 : (allocateId ⟨0, []⟩ 7).2.2 = ⟨1, [(0, 7)]⟩ := by
    simp [allocateId, hmInsert, hmRemove]
  have h1 := spin_iter 7 (2 ^ 32 - 1) le_rfl
  have h2 : (1 + (2 ^ 32 - 1)) % 2 ^ 32 = 0 := by decide
  rw [h0, h1, h2]
  refine ⟨rfl, rfl, rfl, by decide⟩

/-- C5 amended: ids come from a monotonically increasing counter with
wrap-around at `2 ^ 32`; an allocation touches no pending entry other than
the allocated id itself, so pending ids stay pairwise distinct as map keys —
but the insert is unchecked, and when the wrapped counter reaches the id of
a still-pending request (as in the counterexample) that request's one-shot
handler is silently replaced by the new one. -/
theorem C5_id_allocation (rc : RequestsContainer) (result_sender : Nat) :
    (allocateId rc result_sender).1 = rc.next_id ∧
    (allocateId rc result_sender).2.1 = rc.handlers.length ∧
    (allocateId rc result_sender).2.2.next_id = (rc.next_id + 1) % 2 ^ 32 ∧
    hmLookup (allocateId rc result_sender).2.2.handlers rc.next_id
      = some result_sender ∧
    (∀ k, k ≠ rc.next_id →
      hmLookup (allocateId rc result_sender).2.2.handlers k
        = hmLookup rc.handlers k) := by
  refine ⟨rfl, rfl, rfl, ?_, ?_⟩
  · simp [allocateId, hmLookup_insert_self]
  · intro k hk
    simp [allocateId, hmLookup_insert_ne _ _ _ _ hk]

theorem C5_id_allocation_witness :
    (allocateId ⟨0, [(3, 5)]⟩ 7).2.2.next_id = 1 ∧
    hmLookup (allocateId ⟨0, [(3, 5)]⟩ 7).2.2.handlers 0 = some 7 ∧
    hmLookup (allocateId ⟨0, [(3, 5)]⟩ 7).2.2.handlers 3 = some 5 := by
  have h := C5_id_allocation ⟨0, [(3, 5)]⟩ 7
  refine ⟨?_, h.2.2.2.1, ?_⟩
  · rw [h.2.2.1]
    decide
  · rw [h.2.2.2.2 3 (by decide)]
    decide

/-- C2: payload-lane pairing is atomic in both directions. Inbound, the
reader equals the frame-level paired dispatcher: every notification frame
consumes exactly the next frame of the stream as its payload, the
`(message, payload)` pair is delivered in one `delivered` event to the
subscriber for `targetId`, and no other record is dispatched between them —
for every inbound byte stream, every classification of frame bodies and
every registry state. Outbound, the writer's byte stream is the
concatenation, queue item by queue item, of the message frame immediately
followed by its payload frame, so no other outbound record interleaves. -/
theorem C2_pairing_atomic (classify : List Nat → RecvShape)
    (rc : RequestsContainer) (input : List Nat)
    (queue : List (List Nat × List Nat)) :
    readerLoop classify rc input
      = pairedDispatch classify rc (splitFrames input).1 (splitFrames input).2 ∧
    writerRun queue
      = queue.flatMap (fun mp => encodeFrame mp.1 ++ encodeFrame mp.2) :=
  ⟨readerLoop_eq_pairedDispatch classify rc input, writerRun_flat queue⟩

/-- C6: the framing round-trip fails at the upper boundary the claim
includes. The encoder emits exactly `|digits(|b|)| + 1 + |b| + 1` bytes for
every body (second conjunct), and for bodies strictly below the cap the
reader decodes the encoded frame back to the body (third conjunct); but at
`|b| = 4194304 = NS_PAYLOAD_MAX_LEN` — a length the writers accept — the
reader panics slicing `length + 1 = 4194305` bytes out of its 4194304-byte
buffer instead of returning the body (first conjunct). -/
theorem C6_roundtrip_boundary :
    readFrame (encodeFrame (List.replicate 4194304 48))
      = .fail (.panicSliceOob false) ∧
    (∀ b : List Nat,
      (encodeFrame b).length = (natDigits b.length).length + 1 + b.length + 1) ∧
    (∀ b rest : List Nat, b.length < 4194304 →
      readFrame (encodeFrame b ++ rest) = .frame b rest) := by
  refine ⟨?_, ?_, ?_⟩
  · have hb : (List.replicate 4194304 48).length < 2 ^ 64 := by
      rw [List.length_replicate]
      decide
    have h := readFrame_encodeFrame (List.replicate 4194304 48) [] hb
    rw [List.append_nil] at h
    rw [h, List.length_replicate]
    norm_num [NS_PAYLOAD_MAX_LEN]
  · intro b
    simp [encodeFrame]
    omega
  · intro b rest hblt
    have hb64 : b.length < 2 ^ 64 := by
      have : (4194304 : Nat) < 2 ^ 64 := by decide
      omega
    rw [readFrame_encodeFrame b rest hb64,
      if_neg (by simp only [NS_PAYLOAD_MAX_LEN]; omega)]

theorem C6_roundtrip_boundary_witness :
    readFrame (encodeFrame [104, 105] ++ []) = .frame [104, 105] [] :=
  C6_roundtrip_boundary.2.2 [104, 105] [] (by decide)

/-- C7: evaluating `WebRtcMessage::new` at the rejected PPIDs: 52 and 54
do not yield a recoverable `BadPpid` error value — they hit the
`panic!("Bad ppid {}")` arm (modelled by `panicBadPpid`; the code's own
`TODO: Make this fallible instead` marks the panic as a stand-in for the
intended error). The supported PPIDs map as the claim says, and encoding
never produces 52 or 54. -/
theorem C7_ppid_mapping :
    WebRtcMessage.new 52 [104] = .error (.panicBadPpid 52) ∧
    WebRtcMessage.new 54 [104] = .error (.panicBadPpid 54) ∧
    WebRtcMessage.new 51 [104] = .ok (.str [104]) ∧
    WebRtcMessage.new 53 [104] = .ok (.binary [104]) ∧
    WebRtcMessage.new 56 [32] = .ok .emptyString ∧
    WebRtcMessage.new 57 [0] = .ok .emptyBinary ∧
    (∀ m : WebRtcMessage, m.into_ppid_and_payload.1 ≠ 52 ∧
      m.into_ppid_and_payload.1 ≠ 54) := by
  refine ⟨rfl, rfl, rfl, rfl, rfl, rfl, ?_⟩
  intro m
  cases m <;> simp [WebRtcMessage.into_ppid_and_payload]

/-- C8: an inbound frame whose length prefix is 4194305 (> max): the reader
does not return an `Oversize` error — no such variant exists. It logs the
oversize warning (the `true` flag) and then consumes on: the slice
`bytes[..(length + 1)]` of the 4194304-byte buffer panics. The input below
is the ASCII stream `4194305:h,`. -/
theorem C8_oversize_not_refused :
    readFrame [52, 49, 57, 52, 51, 48, 53, 58, 104, 44]
      = .fail (.panicSliceOob true) := by rfl

/-- C9: an inbound frame whose length prefix is not pure decimal: the reader
does not return an `InvalidDigits` error — the `unwrap` of
`parse::<usize>()` panics (modelled by `panicParse`). The inputs are the
ASCII streams `ab:,` and `1x:,`, and the empty prefix `:`. -/
theorem C9_bad_digits_not_refused :
    readFrame [97, 98, 58, 44] = .fail .panicParse ∧
    readFrame [49, 120, 58, 44] = .fail .panicParse ∧
    readFrame [58] = .fail .panicParse := ⟨rfl, rfl, rfl⟩

/-- C10: the WebRTC data-channel message round-trip: for every well-formed
message (the `str` variant holds valid UTF-8, as a Rust `String` does),
decoding the `(ppid, payload)` pair produced by the encoder yields the
message again — `String` via PPID 51, `Binary` via 53, the empty string via
56 with the space sentinel, the empty binary via 57 with the NUL sentinel,
the decoder discarding the sentinel payloads. -/
theorem C10_webrtc_roundtrip (m : WebRtcMessage) (h : m.wf) :
    WebRtcMessage.new m.into_ppid_and_payload.1 m.into_ppid_and_payload.2
      = .ok m := by
  cases m with
  | str s =>
    have h' : isValidUtf8 s = true := h
    simp [WebRtcMessage.new, WebRtcMessage.into_ppid_and_payload, h']
  | binary b => rfl
  | emptyString => rfl
  | emptyBinary => rfl

theorem C10_webrtc_roundtrip_witness :
    WebRtcMessage.new
        (WebRtcMessage.into_ppid_and_payload (.str [104, 105])).1
        (WebRtcMessage.into_ppid_and_payload (.str [104, 105])).2
      = .ok (.str [104, 105]) ∧
    WebRtcMessage.new
        (WebRtcMessage.into_ppid_and_payload .emptyString).1
        (WebRtcMessage.into_ppid_and_payload .emptyString).2
      = .ok .emptyString :=
  ⟨C10_webrtc_roundtrip (.str [104, 105])
      (show isValidUtf8 [104, 105] = true by decide),
   C10_webrtc_roundtrip .emptyString trivial⟩
